import Mathlib

/-!
Verification of the webhook-to-Telegram notification relay
(`telegram-github-notifications`): a shallow embedding in Lean 4 of the
event ingestion and routing pipeline, with proofs of the specified
properties.

The embedding covers, faithfully to the Rust source:
  * `src/webhook/mod.rs`  — `verify_signature`, `handle_webhook`
  * `src/github/mod.rs`   — `GitHubEvent::parse`, `parse_request_body`,
                            `parse_nested`, `parse_payload`, `event_key`,
                            `format_message`
  * `src/telegram/mod.rs` — `matches_repo`, `matches_event`,
                            `send_event_notification`

External library collaborators (serde_json's JSON parser,
serde_urlencoded's form parser, the HMAC-SHA256 primitive, the Telegram
HTTP transport) are not code of this repository; they enter the embedding
as explicit function parameters, so every theorem quantifies over all
possible behaviours of those collaborators.  Effectful code (the delivery
fan-out, the request handler) is embedded with an explicit trace of the
observable calls it makes.
-/

/-- JSON values as produced by serde_json: objects are association lists
(serde_json resolves duplicate keys at parse time, so lookup order is
irrelevant for well-formed parser outputs). -/
inductive Json where
  | null : Json
  | bool (b : Bool) : Json
  | num (n : Int) : Json
  | str (s : String) : Json
  | arr (elems : List Json) : Json
  | obj (fields : List (String × Json)) : Json

/-- `serde_json::Value::get(key)`: field lookup, `None` on non-objects. -/
def Json.get (v : Json) (key : String) : Option Json :=
  match v with
  | Json.obj fields => fields.lookup key
  | _ => none

/-- `Value::as_str()`: `Some` exactly on JSON strings. -/
def Json.asStr : Json → Option String
  | Json.str s => some s
  | _ => none

/-- serde deserialization of a `u64` field: a JSON number in `[0, 2^64)`. -/
def Json.asU64 : Json → Option Nat
  | Json.num n => if 0 ≤ n ∧ n < 18446744073709551616 then some n.toNat else none
  | _ => none

/-- serde deserialization of a `bool` field: a JSON boolean. -/
def Json.asBool : Json → Option Bool
  | Json.bool b => some b
  | _ => none

/-- `struct Repository { full_name, html_url }` from `src/github/mod.rs`. -/
structure Repository where
  full_name : String
  html_url : String
  deriving DecidableEq

/-- `struct User { login, html_url }`. -/
structure User where
  login : String
  html_url : String
  deriving DecidableEq

/-- `struct BaseRef { ref }`. -/
structure BaseRef where
  ref : String
  deriving DecidableEq

/-- `struct PullRequestPayload`. -/
structure PullRequestPayload where
  number : Nat
  title : String
  html_url : String
  state : String
  merged : Option Bool
  base : BaseRef
  deriving DecidableEq

/-- `struct IssuePayload`. -/
structure IssuePayload where
  number : Nat
  title : String
  html_url : String
  state : String
  deriving DecidableEq

/-- `struct CommitAuthor { name }`. -/
structure CommitAuthor where
  name : String
  deriving DecidableEq

/-- `struct Commit { id, message, url, author }`. -/
structure Commit where
  id : String
  message : String
  url : String
  author : CommitAuthor
  deriving DecidableEq

/-- `struct PushPayload { ref (renamed ref_name), compare, commits }`. -/
structure PushPayload where
  ref_name : String
  compare : String
  commits : List Commit
  deriving DecidableEq

/-- `struct WorkflowRunPayload`. -/
structure WorkflowRunPayload where
  id : Nat
  name : String
  status : String
  conclusion : Option String
  html_url : String
  head_branch : String
  deriving DecidableEq

/-- `struct ReleasePayload`. -/
structure ReleasePayload where
  tag_name : String
  name : Option String
  html_url : String
  draft : Bool
  prerelease : Bool
  deriving DecidableEq

/-- `enum EventPayload` — the closed set of event detail variants. -/
inductive EventPayload where
  | PullRequest (p : PullRequestPayload) : EventPayload
  | Issue (p : IssuePayload) : EventPayload
  | Push (p : PushPayload) : EventPayload
  | WorkflowRun (p : WorkflowRunPayload) : EventPayload
  | Release (p : ReleasePayload) : EventPayload
  | Unknown : EventPayload
  deriving DecidableEq

/-- `struct GitHubEvent` — the normalized event. -/
structure GitHubEvent where
  event_type : String
  action : Option String
  repo : Repository
  sender : User
  payload : EventPayload
  deriving DecidableEq

/-- `struct RouteConfig { repo_pattern, chat_id, events }` from
`src/config/mod.rs`. -/
structure RouteConfig where
  repo_pattern : String
  chat_id : Int
  events : List String
  deriving DecidableEq

/-- The wildcard pattern/subscription entry. -/
def starPat : String := "*"

/-- Fallback event kind when the `x-github-event` header is missing. -/
def unknownKind : String := "unknown"

/-- Sentinel repository full name. -/
def unknownRepoName : String := "unknown/repository"

/-- Sentinel / generic base URL. -/
def githubBaseUrl : String := "https://github.com"

/-- Sentinel actor handle. -/
def unknownLogin : String := "unknown"

def payloadKey : String := "payload"

def actionKey : String := "action"

def repositoryKey : String := "repository"

def senderKey : String := "sender"

def fullNameKey : String := "full_name"

def htmlUrlKey : String := "html_url"

def loginKey : String := "login"

def pullRequestKind : String := "pull_request"

def issuesKind : String := "issues"

def pushKind : String := "push"

def workflowRunKind : String := "workflow_run"

def releaseKind : String := "release"

def issueKey : String := "issue"

def numberKey : String := "number"

def titleKey : String := "title"

def stateKey : String := "state"

def mergedKey : String := "merged"

def baseKey : String := "base"

def refKey : String := "ref"

def compareKey : String := "compare"

def commitsKey : String := "commits"

def idKey : String := "id"

def messageKey : String := "message"

def urlKey : String := "url"

def authorKey : String := "author"

def nameKey : String := "name"

def statusKey : String := "status"

def conclusionKey : String := "conclusion"

def headBranchKey : String := "head_branch"

def tagNameKey : String := "tag_name"

def draftKey : String := "draft"

def prereleaseKey : String := "prerelease"

/-- Header carrying the signature. -/
def sigHeaderName : String := "x-hub-signature-256"

/-- Header naming the event kind. -/
def eventHeaderName : String := "x-github-event"

/-- The expected signature scheme tag. -/
def sha256Scheme : String := "sha256="

/-- The branch ref namespace stripped by the push formatter. -/
def refsHeadsPat : String := "refs/heads/"

/-- A required `String` field, as serde's derived deserializer reads it:
present and a JSON string, else the whole struct fails. -/
def deserStrField (fields : List (String × Json)) (key : String) : Option String :=
  (fields.lookup key).bind Json.asStr

/-- A required `u64` field. -/
def deserU64Field (fields : List (String × Json)) (key : String) : Option Nat :=
  (fields.lookup key).bind Json.asU64

/-- A required `bool` field. -/
def deserBoolField (fields : List (String × Json)) (key : String) : Option Bool :=
  (fields.lookup key).bind Json.asBool

/-- An `Option<String>` field: missing or `null` gives `None`; a string
gives `Some`; any other shape fails the struct. -/
def deserOptStrField (fields : List (String × Json)) (key : String) :
    Option (Option String) :=
  match fields.lookup key with
  | none => some none
  | some Json.null => some none
  | some v => (Json.asStr v).map some

/-- An `Option<bool>` field, with the same serde semantics. -/
def deserOptBoolField (fields : List (String × Json)) (key : String) :
    Option (Option Bool) :=
  match fields.lookup key with
  | none => some none
  | some Json.null => some none
  | some v => (Json.asBool v).map some

/-- `serde_json::from_value::<Repository>`. -/
def deserRepository (v : Json) : Option Repository :=
  match v with
  | Json.obj fields => do
      let fn ← deserStrField fields fullNameKey
      let hu ← deserStrField fields htmlUrlKey
      some { full_name := fn, html_url := hu }
  | _ => none

/-- `serde_json::from_value::<User>`. -/
def deserUser (v : Json) : Option User :=
  match v with
  | Json.obj fields => do
      let lg ← deserStrField fields loginKey
      let hu ← deserStrField fields htmlUrlKey
      some { login := lg, html_url := hu }
  | _ => none

/-- `serde_json::from_value::<BaseRef>`. -/
def deserBaseRef (v : Json) : Option BaseRef :=
  match v with
  | Json.obj fields => do
      let r ← deserStrField fields refKey
      some { ref := r }
  | _ => none

/-- `serde_json::from_value::<PullRequestPayload>`. -/
def deserPullRequest (v : Json) : Option PullRequestPayload :=
  match v with
  | Json.obj fields => do
      let n ← deserU64Field fields numberKey
      let t ← deserStrField fields titleKey
      let u ← deserStrField fields htmlUrlKey
      let s ← deserStrField fields stateKey
      let m ← deserOptBoolField fields mergedKey
      let bj ← fields.lookup baseKey
      let b ← deserBaseRef bj
      some { number := n, title := t, html_url := u, state := s, merged := m, base := b }
  | _ => none

/-- `serde_json::from_value::<IssuePayload>`. -/
def deserIssue (v : Json) : Option IssuePayload :=
  match v with
  | Json.obj fields => do
      let n ← deserU64Field fields numberKey
      let t ← deserStrField fields titleKey
      let u ← deserStrField fields htmlUrlKey
      let s ← deserStrField fields stateKey
      some { number := n, title := t, html_url := u, state := s }
  | _ => none

/-- `serde_json::from_value::<CommitAuthor>`. -/
def deserCommitAuthor (v : Json) : Option CommitAuthor :=
  match v with
  | Json.obj fields => do
      let n ← deserStrField fields nameKey
      some { name := n }
  | _ => none

/-- `serde_json::from_value::<Commit>`. -/
def deserCommit (v : Json) : Option Commit :=
  match v with
  | Json.obj fields => do
      let i ← deserStrField fields idKey
      let m ← deserStrField fields messageKey
      let u ← deserStrField fields urlKey
      let aj ← fields.lookup authorKey
      let a ← deserCommitAuthor aj
      some { id := i, message := m, url := u, author := a }
  | _ => none

/-- serde's `Vec<Commit>`: a JSON array, every element deserializing. -/
def deserCommitList (v : Json) : Option (List Commit) :=
  match v with
  | Json.arr elems => elems.mapM deserCommit
  | _ => none

/-- `serde_json::from_value::<PushPayload>`. -/
def deserPush (v : Json) : Option PushPayload :=
  match v with
  | Json.obj fields => do
      let r ← deserStrField fields refKey
      let c ← deserStrField fields compareKey
      let cj ← fields.lookup commitsKey
      let cs ← deserCommitList cj
      some { ref_name := r, compare := c, commits := cs }
  | _ => none

/-- `serde_json::from_value::<WorkflowRunPayload>`. -/
def deserWorkflowRun (v : Json) : Option WorkflowRunPayload :=
  match v with
  | Json.obj fields => do
      let i ← deserU64Field fields idKey
      let n ← deserStrField fields nameKey
      let s ← deserStrField fields statusKey
      let c ← deserOptStrField fields conclusionKey
      let u ← deserStrField fields htmlUrlKey
      let hb ← deserStrField fields headBranchKey
      some { id := i, name := n, status := s, conclusion := c, html_url := u, head_branch := hb }
  | _ => none

/-- `serde_json::from_value::<ReleasePayload>`. -/
def deserRelease (v : Json) : Option ReleasePayload :=
  match v with
  | Json.obj fields => do
      let t ← deserStrField fields tagNameKey
      let n ← deserOptStrField fields nameKey
      let u ← deserStrField fields htmlUrlKey
      let d ← deserBoolField fields draftKey
      let p ← deserBoolField fields prereleaseKey
      some { tag_name := t, name := n, html_url := u, draft := d, prerelease := p }
  | _ => none

/-- `fn parse_request_body(body) -> anyhow::Result<Value>`: try JSON
directly; on failure try form decoding, take the `payload` field and
parse that as JSON.  `jsonParse` models `serde_json::from_slice` /
`from_str` and `formParse` models `serde_urlencoded::from_bytes`
(its `HashMap` output is modeled as the association list of its
entries, keys unique). -/
def parse_request_body (jsonParse : String → Option Json)
    (formParse : String → Option (List (String × String)))
    (body : String) : Except String Json :=
  match jsonParse body with
  | some value => Except.ok value
  | none =>
    match formParse body with
    | none => Except.error "invalid form body"
    | some form =>
      match form.lookup payloadKey with
      | none => Except.error "missing payload field in form body"
      | some payload =>
        match jsonParse payload with
        | some value => Except.ok value
        | none => Except.error "invalid json in form payload field"

/-- `fn parse_nested<T>(value, field) -> Option<T>`: read `value.get(field)?`
(or `value` itself when `field` is `None`) and deserialize it; `deser`
models the `Deserialize` impl of the target type `T`. -/
def parse_nested {α : Type} (deser : Json → Option α) (value : Json)
    (field : Option String) : Option α :=
  match field with
  | some key => (value.get key).bind deser
  | none => deser value

/-- `GitHubEvent::parse_payload(event_type, value)`: dispatch on the kind
string; a missing or malformed nested object degrades to `Unknown`. -/
def GitHubEvent.parse_payload (event_type : String) (value : Json) : EventPayload :=
  if event_type = pullRequestKind then
    match parse_nested deserPullRequest value (some pullRequestKind) with
    | some pr => EventPayload.PullRequest pr
    | none => EventPayload.Unknown
  else if event_type = issuesKind then
    match parse_nested deserIssue value (some issueKey) with
    | some issue => EventPayload.Issue issue
    | none => EventPayload.Unknown
  else if event_type = pushKind then
    match parse_nested deserPush value none with
    | some push => EventPayload.Push push
    | none => EventPayload.Unknown
  else if event_type = workflowRunKind then
    match parse_nested deserWorkflowRun value (some workflowRunKind) with
    | some workflow => EventPayload.WorkflowRun workflow
    | none => EventPayload.Unknown
  else if event_type = releaseKind then
    match parse_nested deserRelease value (some releaseKind) with
    | some release => EventPayload.Release release
    | none => EventPayload.Unknown
  else EventPayload.Unknown

/-- `GitHubEvent::parse(event_type, body)`: parse the body, read the
optional `action` string, extract `repository` and `sender` with
`unwrap_or_default()` plus the non-empty sentinel fixups, and build the
kind-specific payload. -/
def GitHubEvent.parse (jsonParse : String → Option Json)
    (formParse : String → Option (List (String × String)))
    (event_type : String) (body : String) : Except String GitHubEvent :=
  match parse_request_body jsonParse formParse body with
  | Except.error e => Except.error e
  | Except.ok value =>
    let action := (value.get actionKey).bind Json.asStr
    let repo0 := (deserRepository ((value.get repositoryKey).getD Json.null)).getD
      { full_name := "", html_url := "" }
    let repo1 :=
      if repo0.full_name = "" then { repo0 with full_name := unknownRepoName } else repo0
    let repo2 :=
      if repo1.html_url = "" then { repo1 with html_url := githubBaseUrl } else repo1
    let sender0 := (deserUser ((value.get senderKey).getD Json.null)).getD
      { login := "", html_url := "" }
    let sender1 :=
      if sender0.login = "" then { sender0 with login := unknownLogin } else sender0
    let sender2 :=
      if sender1.html_url = "" then { sender1 with html_url := githubBaseUrl } else sender1
    Except.ok { event_type := event_type, action := action, repo := repo2,
                sender := sender2,
                payload := GitHubEvent.parse_payload event_type value }

/-- `GitHubEvent::event_key()`: `kind.action` when an action is present,
the bare kind otherwise. -/
def GitHubEvent.event_key (e : GitHubEvent) : String :=
  match e.action with
  | some action => e.event_type ++ "." ++ action
  | none => e.event_type

/-- `str::trim_start_matches(pat)`: remove every successive leading
occurrence of `pat`. -/
def stripAllOcc (pat : List Char) (s : List Char) : List Char :=
  if h : pat ≠ [] ∧ pat.isPrefixOf s then stripAllOcc pat (s.drop pat.length)
  else s
termination_by s.length
decreasing_by
  simp only [List.length_drop]
  have h1 : 0 < pat.length := List.length_pos.mpr h.1
  have h2 : pat.length ≤ s.length := (List.isPrefixOf_iff_prefix.mp h.2).length_le
  omega

/-- `GitHubEvent::format_message()`: the fixed per-variant Markdown
rendering. -/
def GitHubEvent.format_message (e : GitHubEvent) : String :=
  match e.payload with
  | EventPayload.PullRequest pr =>
    let action := match e.action with | some a => a | none => "updated"
    let emoji :=
      if action = "opened" then "🆕"
      else if action = "closed" ∧ pr.merged.getD false = true then "🔀"
      else if action = "closed" then "❌"
      else if action = "reopened" then "🔄"
      else if action = "synchronize" then "📦"
      else "📝"
    emoji ++ " *Pull Request " ++ action ++ "* [#" ++ toString pr.number ++
      "](" ++ pr.html_url ++ ")\n`" ++ pr.base.ref ++ "` → " ++ pr.title ++
      "\n_by [" ++ e.sender.login ++ "](" ++ e.sender.html_url ++ ")_"
  | EventPayload.Issue issue =>
    let action := match e.action with | some a => a | none => "updated"
    let emoji :=
      if action = "opened" then "🐛"
      else if action = "closed" then "✅"
      else if action = "reopened" then "🔄"
      else "📋"
    emoji ++ " *Issue " ++ action ++ "* [#" ++ toString issue.number ++
      "](" ++ issue.html_url ++ ")\n" ++ issue.title ++
      "\n_by [" ++ e.sender.login ++ "](" ++ e.sender.html_url ++ ")_"
  | EventPayload.Push push =>
    let branch := String.mk (stripAllOcc refsHeadsPat.data push.ref_name.data)
    let commits := push.commits.length
    "⬆️ *Push* to `" ++ branch ++ "`\n[Compare](" ++ push.compare ++ ") • " ++
      toString commits ++ " commit(s)\n_by [" ++ e.sender.login ++
      "](" ++ e.sender.html_url ++ ")_"
  | EventPayload.WorkflowRun workflow =>
    let emoji :=
      match workflow.conclusion with
      | some c =>
        if c = "success" then "✅"
        else if c = "failure" then "❌"
        else if c = "cancelled" then "🚫"
        else "⏳"
      | none => "⏳"
    let statusDisplay :=
      match workflow.conclusion with
      | some c => c
      | none => workflow.status
    emoji ++ " *Workflow* `" ++ workflow.name ++ "`\nBranch: `" ++
      workflow.head_branch ++ "` • Status: " ++ statusDisplay ++
      "\n[View Run](" ++ workflow.html_url ++ ")"
  | EventPayload.Release release =>
    let emoji :=
      if release.draft then "📝"
      else if release.prerelease then "🧪"
      else "🏷️"
    let nameDisplay :=
      match release.name with
      | some n => n
      | none => release.tag_name
    emoji ++ " *Release* `" ++ release.tag_name ++ "`\n" ++ nameDisplay ++
      "\n[View Release](" ++ release.html_url ++ ")\n_by [" ++
      e.sender.login ++ "](" ++ e.sender.html_url ++ ")_"
  | EventPayload.Unknown =>
    "📡 *" ++ e.event_type ++ "* on `" ++ e.repo.full_name ++
      "`\n_by [" ++ e.sender.login ++ "](" ++ e.sender.html_url ++ ")_"

/-- `str::trim_end_matches(c)`: remove every trailing occurrence of `c`. -/
def trimEndChar (c : Char) (s : List Char) : List Char :=
  (s.reverse.dropWhile (fun x => x == c)).reverse

/-- `fn matches_repo(pattern, repo_name) -> bool` from
`src/telegram/mod.rs`: `"*"` matches everything; a pattern containing
`'*'` matches when the name starts with the pattern minus its trailing
stars; otherwise exact equality. -/
def matches_repo (pattern repo_name : String) : Bool :=
  if pattern = starPat then true
  else if pattern.data.contains '*' then
    (trimEndChar '*' pattern.data).isPrefixOf repo_name.data
  else repo_name == pattern

/-- `fn matches_event(subscribed, event_key, event_type) -> bool`: any
entry equal to `"*"`, the composite key, or the bare kind. -/
def matches_event (subscribed : List String) (event_key event_type : String) : Bool :=
  subscribed.any (fun s => s == starPat || s == event_key || s == event_type)

/-- The delivery loop of `send_event_notification`, with the observable
calls made explicit: `send` models `TelegramClient::send_message`
(`true` = `Ok`), and the returned list records, in order, the
`(chat_id, outcome)` of every attempted delivery.  A failed send is only
logged (`warn!`) — the loop continues. -/
def sendFanout (send : Int → String → Bool) (event_key message : String)
    (event : GitHubEvent) : List RouteConfig → List (Int × Bool)
  | [] => []
  | route :: rest =>
    if matches_repo route.repo_pattern event.repo.full_name = true ∧
        matches_event route.events event_key event.event_type = true then
      (route.chat_id, send route.chat_id message) ::
        sendFanout send event_key message event rest
    else sendFanout send event_key message event rest

/-- `TelegramClient::send_event_notification(routes, event)`: returns the
delivery trace together with the function's `anyhow::Result<()>` value —
which is `Ok(())` on every path of the source. -/
def send_event_notification (send : Int → String → Bool)
    (routes : List RouteConfig) (event : GitHubEvent) :
    List (Int × Bool) × Except String Unit :=
  (sendFanout send event.event_key event.format_message event routes, Except.ok ())

/-- Hex-digit value, as `hex::decode` accepts it (both cases). -/
def hexDigitVal (c : Char) : Option Nat :=
  if '0' ≤ c ∧ c ≤ '9' then some (c.toNat - 48)
  else if 'a' ≤ c ∧ c ≤ 'f' then some (c.toNat - 87)
  else if 'A' ≤ c ∧ c ≤ 'F' then some (c.toNat - 55)
  else none

/-- `hex::decode` on a character list: an even count of hex digits, two
digits per byte, else failure. -/
def hexDecodeChars : List Char → Option (List Nat)
  | [] => some []
  | [_] => none
  | hi :: lo :: rest => do
      let h ← hexDigitVal hi
      let l ← hexDigitVal lo
      let tail ← hexDecodeChars rest
      some ((16 * h + l) :: tail)

/-- `hex::decode(signature)`. -/
def hexDecode (s : String) : Option (List Nat) :=
  hexDecodeChars s.data

/-- The lowercase hex digit for `n < 16`. -/
def hexDigitChar (n : Nat) : Char :=
  if n < 10 then Char.ofNat (48 + n) else Char.ofNat (87 + n)

/-- `hex::encode` on bytes: two lowercase digits per byte. -/
def hexEncodeBytes : List Nat → List Char
  | [] => []
  | b :: rest => hexDigitChar (b / 16) :: hexDigitChar (b % 16) :: hexEncodeBytes rest

/-- `hex::encode(bytes)`. -/
def hexEncode (bytes : List Nat) : String :=
  String.mk (hexEncodeBytes bytes)

/-- `fn verify_signature(secret, body, signature) -> bool` from
`src/webhook/mod.rs`.  `hmac` models the external HMAC-SHA256 primitive
(digest of `body` keyed by `secret`, as a byte list); the source's
`Hmac::new_from_slice` error branch is dead code — HMAC accepts keys of
every length — and needs no counterpart here. -/
def verify_signature (hmac : String → String → List Nat)
    (secret : String) (body : String) (signature : String) : Bool :=
  match hexDecode signature with
  | none => false
  | some expected_sig => expected_sig == hmac secret body

/-- HTTP status codes returned by the handler. -/
inductive Status where
  | unauthorized : Status
  | badRequest : Status
  | internalServerError : Status
  | ok : Status
  deriving DecidableEq

/-- The observable calls the handler makes after authentication:
invoking the normalizer, and each delivery attempt with its outcome. -/
inductive Effect where
  | parseCall : Effect
  | deliver (chat_id : Int) (succeeded : Bool) : Effect
  deriving DecidableEq

/-- `str::strip_prefix("sha256=")`. -/
def stripScheme (s : String) : Option String :=
  if sha256Scheme.data.isPrefixOf s.data then
    some (String.mk (s.data.drop sha256Scheme.data.length))
  else none

/-- `async fn handle_webhook(state, headers, body)` from
`src/webhook/mod.rs`, with its status code and the trace of observable
calls.  Headers are the request's header map (axum's `HeaderMap`,
modeled as an association list with lowercase names; `to_str().ok()` is
the identity here since values are already strings). -/
def handle_webhook (hmac : String → String → List Nat)
    (jsonParse : String → Option Json)
    (formParse : String → Option (List (String × String)))
    (send : Int → String → Bool)
    (webhook_secret : String) (routing : List RouteConfig)
    (headers : List (String × String)) (body : String) :
    Status × List Effect :=
  match (headers.lookup sigHeaderName).bind stripScheme with
  | none => (Status.unauthorized, [])
  | some signature =>
    if verify_signature hmac webhook_secret body signature = true then
      let event_type := (headers.lookup eventHeaderName).getD unknownKind
      match GitHubEvent.parse jsonParse formParse event_type body with
      | Except.error _ => (Status.badRequest, [Effect.parseCall])
      | Except.ok event =>
        let result := send_event_notification send routing event
        match result.snd with
        | Except.error _ =>
          (Status.internalServerError,
            Effect.parseCall :: result.fst.map (fun p => Effect.deliver p.1 p.2))
        | Except.ok _ =>
          (Status.ok,
            Effect.parseCall :: result.fst.map (fun p => Effect.deliver p.1 p.2))
    else (Status.unauthorized, [])

/-- Modelled from the claim's words (spec §4.4 repository match): `"*"`
matches everything; a pattern ending in `"*"` matches by prefix with the
trailing `"*"` stripped; any other pattern — including patterns with a
`"*"` in non-trailing position — requires exact equality.  Stated only to
compare against `matches_repo` from the source. -/
def matchesRepoClaim (pattern repo_name : String) : Bool :=
  if pattern = starPat then true
  else if pattern.data.getLast? = some '*' then
    (pattern.data.dropLast).isPrefixOf repo_name.data
  else repo_name == pattern

def cexPattern : String := "a*b"

def cexRepoName : String := "a*bc"

/-- C2 counterexample: the pattern `"a*b"` has a `*` in non-trailing
position, so per the claim it should match only the exact name `"a*b"`;
the code instead prefix-matches any pattern containing `*` (after
stripping trailing stars), so `"a*b"` matches `"a*bc"`. -/
theorem C2_counterexample :
    matches_repo cexPattern cexRepoName = true ∧
    matchesRepoClaim cexPattern cexRepoName = false := by
  decide

/-- Mem form of `List.contains` for a lawful `BEq`. -/
theorem contains_eq_true_iff {α : Type} [BEq α] [LawfulBEq α] (l : List α) (a : α) :
    l.contains a = true ↔ a ∈ l :=
  List.elem_iff

/-- C2 (amended): `"*"` matches everything; a pattern containing `"*"`
anywhere matches exactly when the name starts with the pattern with all
its trailing `"*"`s stripped; a pattern without `"*"` matches only under
exact string equality. -/
theorem C2_matches_repo_amended (pattern repo_name : String) :
    matches_repo pattern repo_name = true ↔
      (pattern = starPat ∨
       ('*' ∈ pattern.data ∧ trimEndChar '*' pattern.data <+: repo_name.data) ∨
       ('*' ∉ pattern.data ∧ repo_name = pattern)) := by
  unfold matches_repo
  by_cases h1 : pattern = starPat
  · simp [h1]
  · rw [if_neg h1]
    by_cases h2 : '*' ∈ pattern.data
    · have hc : pattern.data.contains '*' = true := (contains_eq_true_iff _ _).mpr h2
      rw [if_pos hc]
      simp [List.isPrefixOf_iff_prefix, h1, h2]
    · have hc : ¬ (pattern.data.contains '*' = true) :=
        fun hcc => h2 ((contains_eq_true_iff _ _).mp hcc)
      rw [if_neg hc]
      simp [beq_iff_eq, h1, h2]

def prOpenedSub : String := "pull_request.opened"

def prOpenedPre : String := "pull_request."

def openedWord : String := "opened"

/-- Left-cancellation of string concatenation. -/
theorem string_append_cancel_left (s t u : String) (h : s ++ t = s ++ u) : t = u := by
  apply String.ext
  have h2 : s.data ++ t.data = s.data ++ u.data := by
    have h3 := congrArg String.data h
    rwa [String.data_append, String.data_append] at h3
  exact List.append_cancel_left h2

/-- C6: the composite key is the bare kind when `action` is absent and
`kind ++ "." ++ action` otherwise; a subscribed-kinds set matches the
event iff it contains `"*"`, the composite key, or the bare kind;
`{"pull_request"}` matches every pull_request event regardless of action
and `{"pull_request.opened"}` matches exactly the action `"opened"`. -/
theorem C6_kind_matching (e : GitHubEvent) :
    (e.action = none → e.event_key = e.event_type) ∧
    (∀ a, e.action = some a → e.event_key = e.event_type ++ "." ++ a) ∧
    (∀ subscribed, matches_event subscribed e.event_key e.event_type = true ↔
        starPat ∈ subscribed ∨ e.event_key ∈ subscribed ∨ e.event_type ∈ subscribed) ∧
    (e.event_type = pullRequestKind →
        matches_event [pullRequestKind] e.event_key e.event_type = true) ∧
    (e.event_type = pullRequestKind →
        (matches_event [prOpenedSub] e.event_key e.event_type = true ↔
          e.action = some openedWord)) := by
  obtain ⟨ty, act, repo, sender, payload⟩ := e
  refine ⟨?_, ?_, ?_, ?_, ?_⟩
  · intro h
    simp only at h
    simp [GitHubEvent.event_key, h]
  · intro a h
    simp only at h
    simp [GitHubEvent.event_key, h]
  · intro subscribed
    unfold matches_event
    rw [List.any_eq_true]
    constructor
    · rintro ⟨s, hs, hor⟩
      simp only [Bool.or_eq_true, beq_iff_eq] at hor
      rcases hor with (h | h) | h <;> subst h <;> tauto
    · rintro (h | h | h)
      · exact ⟨_, h, by simp⟩
      · exact ⟨_, h, by simp⟩
      · exact ⟨_, h, by simp⟩
  · intro h
    simp only at h
    subst h
    simp [matches_event]
  · intro h
    simp only at h
    subst h
    constructor
    · intro hm
      simp only [matches_event, List.any_eq_true, List.mem_singleton,
        Bool.or_eq_true, beq_iff_eq] at hm
      obtain ⟨s, hs, hor⟩ := hm
      subst hs
      rcases hor with (hx | hx) | hx
      · exact absurd hx (by decide)
      · cases act with
        | none =>
          simp only [GitHubEvent.event_key] at hx
          exact absurd hx (by decide)
        | some a =>
          simp only [GitHubEvent.event_key] at hx
          have hx2 : prOpenedPre ++ openedWord = prOpenedPre ++ a := by
            have hpre : pullRequestKind ++ "." = prOpenedPre := by decide
            have hsub : prOpenedSub = prOpenedPre ++ openedWord := by decide
            rw [← hsub, hx, ← hpre]
          simp only
          rw [string_append_cancel_left _ _ _ hx2]
      · exact absurd hx (by decide)
    · intro ha
      simp only at ha
      subst ha
      have hk : GitHubEvent.event_key
          ⟨pullRequestKind, some openedWord, repo, sender, payload⟩ = prOpenedSub := by
        simp only [GitHubEvent.event_key]
        decide
      simp [matches_event, hk]

/-- The delivery trace is exactly the eligible routes, in list order,
each mapped to its attempted delivery — independent of the outcomes
`send` produces. -/
theorem sendFanout_eq_filter_map (send : Int → String → Bool) (key msg : String)
    (event : GitHubEvent) (routes : List RouteConfig) :
    sendFanout send key msg event routes =
      (routes.filter (fun route =>
        matches_repo route.repo_pattern event.repo.full_name &&
        matches_event route.events key event.event_type)).map
        (fun route => (route.chat_id, send route.chat_id msg)) := by
  induction routes with
  | nil => rfl
  | cons route rest ih =>
    by_cases hc : matches_repo route.repo_pattern event.repo.full_name = true ∧
        matches_event route.events key event.event_type = true
    · rw [sendFanout, if_pos hc]
      have hb : (matches_repo route.repo_pattern event.repo.full_name &&
          matches_event route.events key event.event_type) = true := by
        rw [Bool.and_eq_true]
        exact hc
      simp only [List.filter_cons, hb, if_pos]
      rw [List.map_cons, ih]
    · rw [sendFanout, if_neg hc]
      have hb : ¬ ((matches_repo route.repo_pattern event.repo.full_name &&
          matches_event route.events key event.event_type) = true) := by
        rw [Bool.and_eq_true]
        exact hc
      simp only [List.filter_cons]
      rw [if_neg hb]
      exact ih

/-- First of two routes whose delivery fails while the second succeeds. -/
def routeOne : RouteConfig :=
  { repo_pattern := starPat, chat_id := 1, events := [starPat] }

/-- Second route, delivery succeeds. -/
def routeTwo : RouteConfig :=
  { repo_pattern := starPat, chat_id := 2, events := [starPat] }

/-- A concrete normalized event used in closed routing scenarios. -/
def scenarioEvent : GitHubEvent :=
  { event_type := pushKind, action := none,
    repo := { full_name := unknownRepoName, html_url := githubBaseUrl },
    sender := { login := unknownLogin, html_url := githubBaseUrl },
    payload := EventPayload.Unknown }

/-- A transport that fails exactly for chat 1. -/
def failChatOne : Int → String → Bool := fun c => fun _ => c != 1

/-- C7: the routing engine attempts delivery to every eligible rule's
destination in list order — the trace equals the eligible sublist mapped
to its attempts, for every behaviour of the transport, so one
destination's failure never prevents the remaining attempts; in the
concrete two-route scenario where destination 1 fails, destination 2 is
still attempted and succeeds. -/
theorem C7_fanout_isolated_failure (send : Int → String → Bool)
    (routes : List RouteConfig) (event : GitHubEvent) :
    ((send_event_notification send routes event).fst =
      (routes.filter (fun route =>
        matches_repo route.repo_pattern event.repo.full_name &&
        matches_event route.events event.event_key event.event_type)).map
        (fun route => (route.chat_id, send route.chat_id event.format_message))) ∧
    (send_event_notification failChatOne [routeOne, routeTwo] scenarioEvent).fst =
      [(1, false), (2, true)] := by
  constructor
  · exact sendFanout_eq_filter_map send event.event_key event.format_message event routes
  · decide

/-- Decoding inverts encoding on single hex digits. -/
theorem hexVal_hexChar : ∀ n, n < 16 → hexDigitVal (hexDigitChar n) = some n := by
  decide

/-- `hex::decode ∘ hex::encode` is the identity on byte lists. -/
theorem hexDecode_hexEncode (bs : List Nat) (h : ∀ b ∈ bs, b < 256) :
    hexDecodeChars (hexEncodeBytes bs) = some bs := by
  induction bs with
  | nil => rfl
  | cons b rest ih =>
    have hb : b < 256 := h b (by simp)
    have h1 : b / 16 < 16 := by omega
    have h2 : b % 16 < 16 := by omega
    have hrest := ih (fun x hx => h x (by simp [hx]))
    simp [hexEncodeBytes, hexDecodeChars, hexVal_hexChar _ h1, hexVal_hexChar _ h2, hrest]
    omega

/-- C1: for every HMAC primitive, secret, and body, `verify_signature`
returns true exactly when the claimed signature hex-decodes to the digest
byte-for-byte; a hex-decoding failure yields `false` rather than an
error; and the canonical hex encoding of the digest always verifies. -/
theorem C1_verify_signature_correct (hmac : String → String → List Nat)
    (secret body signature : String) :
    (verify_signature hmac secret body signature = true ↔
      hexDecode signature = some (hmac secret body)) ∧
    (hexDecode signature = none →
      verify_signature hmac secret body signature = false) ∧
    ((∀ b ∈ hmac secret body, b < 256) →
      verify_signature hmac secret body (hexEncode (hmac secret body)) = true) := by
  refine ⟨?_, ?_, ?_⟩
  · unfold verify_signature
    cases hd : hexDecode signature with
    | none => simp
    | some l => simp [beq_iff_eq]
  · intro hd
    unfold verify_signature
    rw [hd]
  · intro h
    unfold verify_signature hexEncode hexDecode
    have hchars : (String.mk (hexEncodeBytes (hmac secret body))).data =
        hexEncodeBytes (hmac secret body) := rfl
    rw [hchars, hexDecode_hexEncode _ h]
    simp

/-- A fixed digest value for the C1 witness. -/
def witnessDigest : List Nat := [171, 0, 255]

/-- C1 witness: verification accepts the canonical hex encoding of a
concrete digest. -/
theorem C1_verify_signature_correct_witness :
    verify_signature (fun _ => fun _ => witnessDigest) sha256Scheme unknownKind
      (hexEncode witnessDigest) = true :=
  (C1_verify_signature_correct (fun _ => fun _ => witnessDigest) sha256Scheme unknownKind
    (hexEncode witnessDigest)).2.2 (by decide)

/-- C4: normalization succeeds exactly when the body is valid JSON, or is
valid form data containing a `payload` field whose value is valid JSON;
it fails (with an error value, for every kind) exactly otherwise. -/
theorem C4_parse_succeeds_iff (jsonParse : String → Option Json)
    (formParse : String → Option (List (String × String)))
    (event_type body : String) :
    ((∃ e, GitHubEvent.parse jsonParse formParse event_type body = Except.ok e) ↔
      ((∃ v, jsonParse body = some v) ∨
       (∃ form payload, formParse body = some form ∧
          form.lookup payloadKey = some payload ∧ ∃ v, jsonParse payload = some v))) ∧
    ((∃ msg, GitHubEvent.parse jsonParse formParse event_type body = Except.error msg) ↔
      ¬ ((∃ v, jsonParse body = some v) ∨
       (∃ form payload, formParse body = some form ∧
          form.lookup payloadKey = some payload ∧ ∃ v, jsonParse payload = some v))) := by
  cases hj : jsonParse body with
  | some v => simp [GitHubEvent.parse, parse_request_body, hj]
  | none =>
    cases hf : formParse body with
    | none => simp [GitHubEvent.parse, parse_request_body, hj, hf]
    | some form =>
      cases hl : form.lookup payloadKey with
      | none => simp [GitHubEvent.parse, parse_request_body, hj, hf, hl]
      | some payload =>
        cases hp : jsonParse payload with
        | none => simp [GitHubEvent.parse, parse_request_body, hj, hf, hl, hp]
        | some v => simp [GitHubEvent.parse, parse_request_body, hj, hf, hl, hp]

/-- Once `parse_request_body` succeeds, `GitHubEvent::parse` succeeds and
its event carries the given kind and the dispatched payload. -/
theorem parse_ok_of_body_ok (jsonParse : String → Option Json)
    (formParse : String → Option (List (String × String)))
    (event_type body : String) (v : Json)
    (hv : parse_request_body jsonParse formParse body = Except.ok v) :
    ∃ e, GitHubEvent.parse jsonParse formParse event_type body = Except.ok e ∧
      e.event_type = event_type ∧
      e.payload = GitHubEvent.parse_payload event_type v := by
  unfold GitHubEvent.parse
  rw [hv]
  exact ⟨_, rfl, rfl, rfl⟩

/-- C5: kind-specific extraction never fails the parse — when the body
parses, the whole parse succeeds with `payload = parse_payload kind v`,
and `parse_payload` is `Unknown` for every unrecognized kind and for
every recognized kind whose expected nested object is missing or fails to
deserialize. -/
theorem C5_extraction_never_fails (jsonParse : String → Option Json)
    (formParse : String → Option (List (String × String)))
    (event_type body : String) (v : Json)
    (hv : parse_request_body jsonParse formParse body = Except.ok v) :
    (∃ e, GitHubEvent.parse jsonParse formParse event_type body = Except.ok e ∧
      e.payload = GitHubEvent.parse_payload event_type v) ∧
    (event_type ≠ pullRequestKind → event_type ≠ issuesKind → event_type ≠ pushKind →
      event_type ≠ workflowRunKind → event_type ≠ releaseKind →
      GitHubEvent.parse_payload event_type v = EventPayload.Unknown) ∧
    (event_type = pullRequestKind →
      parse_nested deserPullRequest v (some pullRequestKind) = none →
      GitHubEvent.parse_payload event_type v = EventPayload.Unknown) ∧
    (event_type = issuesKind →
      parse_nested deserIssue v (some issueKey) = none →
      GitHubEvent.parse_payload event_type v = EventPayload.Unknown) ∧
    (event_type = pushKind →
      parse_nested deserPush v none = none →
      GitHubEvent.parse_payload event_type v = EventPayload.Unknown) ∧
    (event_type = workflowRunKind →
      parse_nested deserWorkflowRun v (some workflowRunKind) = none →
      GitHubEvent.parse_payload event_type v = EventPayload.Unknown) ∧
    (event_type = releaseKind →
      parse_nested deserRelease v (some releaseKind) = none →
      GitHubEvent.parse_payload event_type v = EventPayload.Unknown) := by
  refine ⟨?_, ?_, ?_, ?_, ?_, ?_, ?_⟩
  · obtain ⟨e, he, _, hp⟩ := parse_ok_of_body_ok jsonParse formParse event_type body v hv
    exact ⟨e, he, hp⟩
  · intro h1 h2 h3 h4 h5
    unfold GitHubEvent.parse_payload
    rw [if_neg h1, if_neg h2, if_neg h3, if_neg h4, if_neg h5]
  · intro h hn
    subst h
    unfold GitHubEvent.parse_payload
    rw [if_pos rfl, hn]
  · intro h hn
    subst h
    unfold GitHubEvent.parse_payload
    rw [if_neg (by decide : ¬ (issuesKind = pullRequestKind)), if_pos rfl, hn]
  · intro h hn
    subst h
    unfold GitHubEvent.parse_payload
    rw [if_neg (by decide : ¬ (pushKind = pullRequestKind)),
        if_neg (by decide : ¬ (pushKind = issuesKind)), if_pos rfl, hn]
  · intro h hn
    subst h
    unfold GitHubEvent.parse_payload
    rw [if_neg (by decide : ¬ (workflowRunKind = pullRequestKind)),
        if_neg (by decide : ¬ (workflowRunKind = issuesKind)),
        if_neg (by decide : ¬ (workflowRunKind = pushKind)), if_pos rfl, hn]
  · intro h hn
    subst h
    unfold GitHubEvent.parse_payload
    rw [if_neg (by decide : ¬ (releaseKind = pullRequestKind)),
        if_neg (by decide : ¬ (releaseKind = issuesKind)),
        if_neg (by decide : ¬ (releaseKind = pushKind)),
        if_neg (by decide : ¬ (releaseKind = workflowRunKind)), if_pos rfl, hn]

/-- A body value for closed instances (content irrelevant: the parsers in
the witnesses are constant functions). -/
def sampleBody : String := "{}"

/-- A JSON parser accepting everything as the empty object. -/
def witnessJsonParse : String → Option Json := fun _ => some (Json.obj [])

/-- A form parser rejecting everything. -/
def witnessFormParse : String → Option (List (String × String)) := fun _ => none

/-- C5 witness: with a parser producing the empty object and the unknown
kind, the parse succeeds and the payload is the dispatched one. -/
theorem C5_extraction_never_fails_witness :
    ∃ e, GitHubEvent.parse witnessJsonParse witnessFormParse unknownKind sampleBody =
      Except.ok e ∧
      e.payload = GitHubEvent.parse_payload unknownKind (Json.obj []) :=
  (C5_extraction_never_fails witnessJsonParse witnessFormParse unknownKind sampleBody
    (Json.obj []) rfl).1

/-- C8: every successfully parsed event has non-empty repository full
name and URL and non-empty actor handle and profile URL; when the source
payload omits the sub-object (or its deserialization fails) the sentinel
values are used, and an empty extracted field is likewise replaced by its
sentinel. -/
theorem C8_nonempty_invariant (jsonParse : String → Option Json)
    (formParse : String → Option (List (String × String)))
    (event_type body : String) (e : GitHubEvent)
    (he : GitHubEvent.parse jsonParse formParse event_type body = Except.ok e) :
    (e.repo.full_name ≠ "" ∧ e.repo.html_url ≠ "" ∧
     e.sender.login ≠ "" ∧ e.sender.html_url ≠ "") ∧
    (∀ v, parse_request_body jsonParse formParse body = Except.ok v →
      (deserRepository ((v.get repositoryKey).getD Json.null) = none →
        e.repo = { full_name := unknownRepoName, html_url := githubBaseUrl }) ∧
      (∀ r, deserRepository ((v.get repositoryKey).getD Json.null) = some r →
        (r.full_name = "" → e.repo.full_name = unknownRepoName) ∧
        (r.html_url = "" → e.repo.html_url = githubBaseUrl)) ∧
      (deserUser ((v.get senderKey).getD Json.null) = none →
        e.sender = { login := unknownLogin, html_url := githubBaseUrl }) ∧
      (∀ u, deserUser ((v.get senderKey).getD Json.null) = some u →
        (u.login = "" → e.sender.login = unknownLogin) ∧
        (u.html_url = "" → e.sender.html_url = githubBaseUrl))) := by
  cases hv : parse_request_body jsonParse formParse body with
  | error msg =>
    unfold GitHubEvent.parse at he
    rw [hv] at he
    exact absurd he (by simp)
  | ok v0 =>
    unfold GitHubEvent.parse at he
    rw [hv] at he
    simp only [Except.ok.injEq] at he
    subst he
    constructor
    · refine ⟨?_, ?_, ?_, ?_⟩ <;>
        · simp only
          split_ifs <;> simp_all <;> decide
    · intro v hv2
      simp only [Except.ok.injEq] at hv2
      subst hv2
      refine ⟨?_, ?_, ?_, ?_⟩
      · intro hnone
        simp only [hnone]
        split_ifs <;> simp_all
      · intro r hr
        simp only [hr]
        constructor
        · intro hempty
          split_ifs <;> simp_all
        · intro hempty
          split_ifs <;> simp_all
      · intro hnone
        simp only [hnone]
        split_ifs <;> simp_all
      · intro u hu
        simp only [hu]
        constructor
        · intro hempty
          split_ifs <;> simp_all
        · intro hempty
          split_ifs <;> simp_all

/-- The event produced by the witness parsers from an empty JSON object
and the fallback kind — every field sits at its sentinel. -/
def witnessEvent : GitHubEvent :=
  { event_type := unknownKind, action := none,
    repo := { full_name := unknownRepoName, html_url := githubBaseUrl },
    sender := { login := unknownLogin, html_url := githubBaseUrl },
    payload := EventPayload.Unknown }

/-- C8 witness: the concrete event parsed from the empty object has all
four fields non-empty. -/
theorem C8_nonempty_invariant_witness :
    witnessEvent.repo.full_name ≠ "" ∧ witnessEvent.repo.html_url ≠ "" ∧
    witnessEvent.sender.login ≠ "" ∧ witnessEvent.sender.html_url ≠ "" :=
  (C8_nonempty_invariant witnessJsonParse witnessFormParse unknownKind sampleBody
    witnessEvent rfl).1

/-- C9: a missing signature header, a header without the `sha256=`
prefix, or a failing verification each reject the request with 401
before normalization: the handler returns `unauthorized` with an empty
trace — the normalizer is never invoked and no delivery is attempted. -/
theorem C9_reject_before_normalize (hmac : String → String → List Nat)
    (jsonParse : String → Option Json)
    (formParse : String → Option (List (String × String)))
    (send : Int → String → Bool) (webhook_secret : String)
    (routing : List RouteConfig) (headers : List (String × String)) (body : String) :
    (headers.lookup sigHeaderName = none →
      handle_webhook hmac jsonParse formParse send webhook_secret routing headers body =
        (Status.unauthorized, [])) ∧
    (∀ raw, headers.lookup sigHeaderName = some raw → stripScheme raw = none →
      handle_webhook hmac jsonParse formParse send webhook_secret routing headers body =
        (Status.unauthorized, [])) ∧
    (∀ raw signature, headers.lookup sigHeaderName = some raw →
      stripScheme raw = some signature →
      verify_signature hmac webhook_secret body signature = false →
      handle_webhook hmac jsonParse formParse send webhook_secret routing headers body =
        (Status.unauthorized, [])) := by
  refine ⟨?_, ?_, ?_⟩
  · intro h
    unfold handle_webhook
    rw [h]
    rfl
  · intro raw h1 h2
    unfold handle_webhook
    simp only [h1, Option.some_bind, h2]
  · intro raw signature h1 h2 h3
    unfold handle_webhook
    simp only [h1, Option.some_bind, h2, h3]
    simp

/-- C9 witness: a request with no headers at all is rejected with an
empty trace. -/
theorem C9_reject_before_normalize_witness :
    handle_webhook (fun _ => fun _ => witnessDigest) witnessJsonParse witnessFormParse
      failChatOne sha256Scheme [] [] sampleBody = (Status.unauthorized, []) :=
  (C9_reject_before_normalize (fun _ => fun _ => witnessDigest) witnessJsonParse
    witnessFormParse failChatOne sha256Scheme [] [] sampleBody).1 rfl

/-- C10: an authenticated request with a parseable body but no
`x-github-event` header is not rejected — the handler substitutes the
kind `"unknown"`, normalization yields an event with the `Unknown`
detail, and the request completes with 200 and the usual routing trace
on that event. -/
theorem C10_missing_kind_header (hmac : String → String → List Nat)
    (jsonParse : String → Option Json)
    (formParse : String → Option (List (String × String)))
    (send : Int → String → Bool) (webhook_secret : String)
    (routing : List RouteConfig) (headers : List (String × String))
    (body raw signature : String) (v : Json)
    (h1 : headers.lookup sigHeaderName = some raw)
    (h2 : stripScheme raw = some signature)
    (h3 : verify_signature hmac webhook_secret body signature = true)
    (h4 : headers.lookup eventHeaderName = none)
    (h5 : parse_request_body jsonParse formParse body = Except.ok v) :
    ∃ e, GitHubEvent.parse jsonParse formParse unknownKind body = Except.ok e ∧
      e.event_type = unknownKind ∧
      e.payload = EventPayload.Unknown ∧
      handle_webhook hmac jsonParse formParse send webhook_secret routing headers body =
        (Status.ok, Effect.parseCall ::
          (send_event_notification send routing e).fst.map
            (fun p => Effect.deliver p.1 p.2)) := by
  have hu : GitHubEvent.parse_payload unknownKind v = EventPayload.Unknown := by
    unfold GitHubEvent.parse_payload
    rw [if_neg (by decide : ¬ (unknownKind = pullRequestKind)),
        if_neg (by decide : ¬ (unknownKind = issuesKind)),
        if_neg (by decide : ¬ (unknownKind = pushKind)),
        if_neg (by decide : ¬ (unknownKind = workflowRunKind)),
        if_neg (by decide : ¬ (unknownKind = releaseKind))]
  obtain ⟨e, he, hty, hpl⟩ :=
    parse_ok_of_body_ok jsonParse formParse unknownKind body v h5
  refine ⟨e, he, hty, by rw [hpl, hu], ?_⟩
  unfold handle_webhook
  simp only [h1, Option.some_bind, h2, h3, h4, Option.getD_none, if_true, he]
  rfl

/-- C3 counterexample input: an authenticated request (empty digest,
`sha256=` header with empty hex) whose one eligible delivery fails. -/
def emptyHmac : String → String → List Nat := fun _ => fun _ => []

/-- A transport that fails every delivery. -/
def failSend : Int → String → Bool := fun _ => fun _ => false

/-- Headers carrying only a valid (for `emptyHmac`) signature. -/
def sampleHeaders : List (String × String) := [(sigHeaderName, sha256Scheme)]

/-- C3 counterexample: every delivery for the request fails (the only
attempt is `deliver 1 false`), yet the handler reports `Status.ok` — the
very outcome returned when deliveries succeed — rather than a distinct
failure outcome. -/
theorem C3_counterexample :
    handle_webhook emptyHmac witnessJsonParse witnessFormParse failSend unknownKind
      [routeOne] sampleHeaders sampleBody =
      (Status.ok, [Effect.parseCall, Effect.deliver 1 false]) := by
  decide

/-- C3 (amended): if every delivery attempt fails the request is still
reported as a success — `send_event_notification` returns `Ok(())` on
every path, so an authenticated request with a parseable body yields the
success status regardless of the transport's outcomes. -/
theorem C3_all_failures_still_ok (hmac : String → String → List Nat)
    (jsonParse : String → Option Json)
    (formParse : String → Option (List (String × String)))
    (send : Int → String → Bool) (webhook_secret : String)
    (routing : List RouteConfig) (headers : List (String × String))
    (body raw signature : String) (event : GitHubEvent)
    (h1 : headers.lookup sigHeaderName = some raw)
    (h2 : stripScheme raw = some signature)
    (h3 : verify_signature hmac webhook_secret body signature = true)
    (h5 : ∃ e, GitHubEvent.parse jsonParse formParse
      ((headers.lookup eventHeaderName).getD unknownKind) body = Except.ok e) :
    (send_event_notification send routing event).snd = Except.ok () ∧
    (handle_webhook hmac jsonParse formParse send webhook_secret routing
      headers body).fst = Status.ok := by
  refine ⟨rfl, ?_⟩
  obtain ⟨e, he⟩ := h5
  unfold handle_webhook
  simp only [h1, Option.some_bind, h2, h3, if_true, he]
  rfl

/-- C3 amended witness: concrete all-failing transport still yields
`Ok(())` from the fan-out and 200 from the handler. -/
theorem C3_all_failures_still_ok_witness :
    (send_event_notification failSend [routeOne] scenarioEvent).snd = Except.ok () ∧
    (handle_webhook emptyHmac witnessJsonParse witnessFormParse failSend unknownKind
      [routeOne] sampleHeaders sampleBody).fst = Status.ok :=
  C3_all_failures_still_ok emptyHmac witnessJsonParse witnessFormParse failSend
    unknownKind [routeOne] sampleHeaders sampleBody sha256Scheme
    (String.mk []) scenarioEvent rfl rfl (by decide) ⟨_, rfl⟩

/-- A concrete pull_request/opened event for the C6 witness. -/
def prEvent : GitHubEvent :=
  { event_type := pullRequestKind, action := some openedWord,
    repo := { full_name := unknownRepoName, html_url := githubBaseUrl },
    sender := { login := unknownLogin, html_url := githubBaseUrl },
    payload := EventPayload.Unknown }

/-- C6 witness: composite key and both subscription examples on a
concrete pull_request/opened event. -/
theorem C6_kind_matching_witness :
    GitHubEvent.event_key prEvent = prEvent.event_type ++ "." ++ openedWord ∧
    matches_event [pullRequestKind] (GitHubEvent.event_key prEvent)
      prEvent.event_type = true ∧
    matches_event [prOpenedSub] (GitHubEvent.event_key prEvent)
      prEvent.event_type = true :=
  ⟨(C6_kind_matching prEvent).2.1 openedWord rfl,
   (C6_kind_matching prEvent).2.2.2.1 rfl,
   ((C6_kind_matching prEvent).2.2.2.2 rfl).mpr rfl⟩

/-- C10 witness: the concrete authenticated request without an event
header completes with 200 and the routing trace of the unknown-kind
event. -/
theorem C10_missing_kind_header_witness :
    ∃ e, GitHubEvent.parse witnessJsonParse witnessFormParse unknownKind sampleBody =
        Except.ok e ∧
      e.event_type = unknownKind ∧
      e.payload = EventPayload.Unknown ∧
      handle_webhook emptyHmac witnessJsonParse witnessFormParse failSend unknownKind
        [routeOne] sampleHeaders sampleBody =
        (Status.ok, Effect.parseCall ::
          (send_event_notification failSend [routeOne] e).fst.map
            (fun p => Effect.deliver p.1 p.2)) :=
  C10_missing_kind_header emptyHmac witnessJsonParse witnessFormParse failSend
    unknownKind [routeOne] sampleHeaders sampleBody sha256Scheme (String.mk [])
    (Json.obj []) rfl rfl (by decide) rfl rfl
